import Mathlib

/-!
Shallow embedding of the SiteAnalysis_GEE repository (FastAPI services over
Google Earth Engine) and proofs about its specification claims.

Machine floats of the Python source are modelled by `Rat`; every Engine
round-trip (`getInfo()` style calls) is modelled by an explicit environment
record whose fields are `Except`/`Option` valued, matching the try/except
structure of the source.  Each definition carries a pointer to the source
location it embeds.
-/

namespace SiteAnalysis

/-! ## Python numeric helpers -/

/-- Python `round` to an integer: round-half-to-even (banker's rounding). -/
def roundHalfEven (q : Rat) : Int :=
  if q - (⌊q⌋ : Rat) < 1/2 then ⌊q⌋
  else if q - (⌊q⌋ : Rat) > 1/2 then ⌊q⌋ + 1
  else if ⌊q⌋ % 2 = 0 then ⌊q⌋ else ⌊q⌋ + 1

theorem roundHalfEven_eq_of_frac_lt (q : Rat) (z : Int)
    (h1 : (z : Rat) ≤ q) (h2 : q < z + 1) (h3 : q - z < 1/2) :
    roundHalfEven q = z := by
  have hf : ⌊q⌋ = z := Int.floor_eq_iff.mpr ⟨h1, by exact_mod_cast h2⟩
  unfold roundHalfEven
  rw [hf, if_pos h3]

theorem roundHalfEven_eq_of_frac_gt (q : Rat) (z : Int)
    (h1 : (z : Rat) ≤ q) (h2 : q < z + 1) (h3 : q - z > 1/2) :
    roundHalfEven q = z + 1 := by
  have hf : ⌊q⌋ = z := Int.floor_eq_iff.mpr ⟨h1, by exact_mod_cast h2⟩
  unfold roundHalfEven
  rw [hf, if_neg (by linarith), if_pos h3]

theorem roundHalfEven_nonneg (q : Rat) (h : 0 ≤ q) : 0 ≤ roundHalfEven q := by
  have hf : 0 ≤ ⌊q⌋ := Int.floor_nonneg.mpr h
  unfold roundHalfEven
  split_ifs <;> omega

/-- Python `round(x, n)` for nonnegative `n`: round-half-even at `n` decimal
digits. -/
def pyRound (q : Rat) (n : Nat) : Rat :=
  ((roundHalfEven (q * 10 ^ n) : Int) : Rat) / 10 ^ n

theorem pyRound_nonneg (q : Rat) (n : Nat) (h : 0 ≤ q) : 0 ≤ pyRound q n := by
  unfold pyRound
  apply div_nonneg
  · exact_mod_cast roundHalfEven_nonneg _ (by positivity)
  · positivity

theorem pyRound_den_100 (q : Rat) :
    ∃ k : Int, pyRound q 2 = (k : Rat) / 100 := by
  exact ⟨roundHalfEven (q * 10 ^ 2), by unfold pyRound; norm_num⟩

/-- Values passed to `safe_round` (app/gee_utils.py:255): Python `None`, a
float, or a string. -/
inductive PyVal where
  | pynone : PyVal
  | pyfloat (q : Rat) : PyVal
  | pystr (s : String) : PyVal
deriving DecidableEq

/-- Digits list to a natural number. -/
def digitsToNat (cs : List Char) : Nat :=
  cs.foldl (fun a c => a * 10 + (c.toNat - 48)) 0

/-- Models Python `float(s)` on a decimal string literal: optional sign, then
digits with an optional single fractional point; anything else fails
(`ValueError`).  Exponents/`inf`/`nan` are not needed by any claim input. -/
def pyFloatOfString (s : String) : Option Rat :=
  let t := s.data
  let signAndRest : Int × List Char :=
    match t with
    | '-' :: rest => (-1, rest)
    | '+' :: rest => (1, rest)
    | _ => (1, t)
  let sign := signAndRest.1
  let body := signAndRest.2
  let intPart := body.takeWhile Char.isDigit
  let rest := body.dropWhile Char.isDigit
  match rest with
  | [] =>
      if intPart.isEmpty then none
      else some ((sign : Rat) * (digitsToNat intPart : Rat))
  | '.' :: frac =>
      if frac.all Char.isDigit && !(intPart.isEmpty && frac.isEmpty) then
        some ((sign : Rat) *
          ((digitsToNat intPart : Rat) + (digitsToNat frac : Rat) / 10 ^ frac.length))
      else none
  | _ => none

/-- Python `float(value)` over the modelled value universe: floats coerce to
themselves, strings are parsed, `None` is not coercible (`TypeError`). -/
def floatOf : PyVal → Option Rat
  | .pynone => none
  | .pyfloat q => some q
  | .pystr s => pyFloatOfString s

/-- Embeds `safe_round(value, decimals=3)` (app/gee_utils.py:255-262): `0.0`
for `None`, `round(float(value), decimals)` when coercion succeeds, `0.0` when
`float(value)` raises.  The Python default `decimals=3` is passed explicitly at
use sites. -/
def safe_round (value : PyVal) (decimals : Nat) : Rat :=
  match value with
  | .pynone => 0
  | v =>
      match floatOf v with
      | some q => pyRound q decimals
      | none => 0

/-! ## Vegetation distribution (app/gee_utils.py:1124-1154, 1194-1211) -/

/-- The four-bucket `vegetation_distribution` dictionary. -/
structure VegetationDistribution where
  non_vegetated : Rat
  low_vegetation : Rat
  moderate_vegetation : Rat
  dense_vegetation : Rat
deriving DecidableEq

/-- Embeds the NDVI-mean threshold chain of `analyze_viirs_vegetation`
(app/gee_utils.py:1127-1154) selecting one of four fixed tables. -/
def vegetationDistribution (ndvi_mean : Rat) : VegetationDistribution :=
  if ndvi_mean < 0.2 then ⟨60.0, 25.0, 10.0, 5.0⟩
  else if ndvi_mean < 0.4 then ⟨30.0, 40.0, 20.0, 10.0⟩
  else if ndvi_mean < 0.6 then ⟨15.0, 25.0, 35.0, 25.0⟩
  else ⟨5.0, 15.0, 30.0, 50.0⟩

/-- The fixed fallback payload of `create_fallback_vegetation_data`
(app/gee_utils.py:1194-1211). -/
structure FallbackVegetationData where
  viirs_ndvi_mean : Rat
  viirs_ndvi_std : Rat
  viirs_ndvi_min : Rat
  viirs_ndvi_max : Rat
  viirs_evi_mean : Rat
  viirs_evi_std : Rat
  vegetation_health_mean : Rat
  vegetation_distribution : VegetationDistribution
deriving DecidableEq

/-- Embeds `create_fallback_vegetation_data` (app/gee_utils.py:1194-1211). -/
def create_fallback_vegetation_data : FallbackVegetationData :=
  { viirs_ndvi_mean := 0.350
    viirs_ndvi_std := 0.120
    viirs_ndvi_min := 0.100
    viirs_ndvi_max := 0.750
    viirs_evi_mean := 0.280
    viirs_evi_std := 0.090
    vegetation_health_mean := 0.320
    vegetation_distribution := ⟨20.0, 30.0, 35.0, 15.0⟩ }

/-- Sum of the four `vegetation_distribution` buckets. -/
def vegDistSum (d : VegetationDistribution) : Rat :=
  d.non_vegetated + d.low_vegetation + d.moderate_vegetation + d.dense_vegetation

/-! ## Claim theorems (first group) -/

/-- C6: the vegetation-density buckets are selected by strict thresholds on
mean NDVI: at 0.19 the distribution is (60, 25, 10, 5); at exactly 0.2 it is
(30, 40, 20, 10), so the first boundary is `< 0.2`, not `<= 0.2`; at exactly
0.6 it is (5, 15, 30, 50), so the last boundary is `< 0.6`, not `<= 0.6`. -/
theorem vegetation_bucket_thresholds_strict :
    vegetationDistribution 0.19 = ⟨60, 25, 10, 5⟩ ∧
    vegetationDistribution 0.2 = ⟨30, 40, 20, 10⟩ ∧
    vegetationDistribution 0.6 = ⟨5, 15, 30, 50⟩ := by
  refine ⟨?_, ?_, ?_⟩ <;> simp only [vegetationDistribution] <;> norm_num

/-- C10: on every return path of the vegetation analysis — each of the four
NDVI-threshold tables in `analyze_viirs_vegetation` and the fixed fallback
payload of `create_fallback_vegetation_data` — the four bucket values sum to
exactly 100. -/
theorem vegetation_distribution_sums_to_100 :
    (∀ ndvi_mean : Rat, vegDistSum (vegetationDistribution ndvi_mean) = 100) ∧
    vegDistSum create_fallback_vegetation_data.vegetation_distribution = 100 := by
  constructor
  · intro m
    unfold vegetationDistribution
    split_ifs <;> norm_num [vegDistSum]
  · norm_num [vegDistSum, create_fallback_vegetation_data]

/-- C8: `safe_round` is total and numeric-valued: `None` and non-coercible
strings yield `0.0`, a coercible input is rounded to the requested decimal
count, and on every input the result is either the `0.0` fallback or the
rounding of the coerced value (never an exception, always a number). -/
theorem safe_round_total_and_coercing :
    safe_round .pynone 3 = 0 ∧
    safe_round (.pystr "not a number") 3 = 0 ∧
    safe_round (.pyfloat 1.23456) 3 = 1.235 ∧
    (∀ (v : PyVal) (n : Nat),
      safe_round v n = 0 ∨
      ∃ q, floatOf v = some q ∧ safe_round v n = pyRound q n) := by
  have hround : pyRound 1.23456 3 = 1.235 := by
    have hq : (1.23456 : Rat) * 10 ^ 3 = 1234.56 := by norm_num
    have hr : roundHalfEven ((1.23456 : Rat) * 10 ^ 3) = 1235 := by
      rw [hq]
      have := roundHalfEven_eq_of_frac_gt 1234.56 1234 (by norm_num) (by norm_num) (by norm_num)
      simpa using this
    unfold pyRound
    rw [hr]
    norm_num
  refine ⟨by decide, by decide, ?_, ?_⟩
  · show pyRound 1.23456 3 = 1.235
    exact hround
  intro v n
  match v with
  | .pynone => exact Or.inl rfl
  | .pyfloat q => exact Or.inr ⟨q, rfl, rfl⟩
  | .pystr s =>
      cases h : pyFloatOfString s with
      | none =>
          left
          simp only [safe_round, floatOf, h]
      | some q =>
          right
          exact ⟨q, by simp only [floatOf, h], by simp only [safe_round, floatOf, h]⟩

/-! ## Request schema layer (app/models.py:15-35) -/

/-- The fixed layer allow-list of the `validate_layers` validator
(app/models.py:28-31). -/
def supported_layers : List String :=
  ["ndvi", "ndbi", "ndwi", "elevation", "slope",
   "landcover", "water_occurrence", "rainfall", "buildings"]

/-- The default layers list of `LocationRequest.layers` (app/models.py:21). -/
def default_layers : List String := ["ndvi", "elevation", "slope", "landcover"]

/-- Python `repr` of a list of strings, as interpolated into the validator's
f-string error message. -/
def pyListRepr (xs : List String) : String :=
  "[" ++ String.intercalate ", " (xs.map (fun x => "\x27" ++ x ++ "\x27")) ++ "]"

/-- The validator's error message (app/models.py:34). -/
def unsupportedLayerMessage (layer : String) : String :=
  "Unsupported layer: " ++ layer ++ ". Supported layers: " ++ pyListRepr supported_layers

/-- Embeds the `validate_layers` validator (app/models.py:25-35): raises on
the first requested layer outside the allow-list, otherwise returns the list
unchanged. -/
def validate_layers (v : List String) : Except String (List String) :=
  match v.find? (fun layer => !supported_layers.contains layer) with
  | some layer => .error (unsupportedLayerMessage layer)
  | none => .ok v

/-- The validated `LocationRequest` record (app/models.py:15-23). -/
structure LocationRequest where
  lat : Rat
  lon : Rat
  buffer_m : Int
  layers : List String
deriving DecidableEq

/-- Embeds construction of a `LocationRequest` (app/models.py:15-35): pydantic
field bounds `lat ∈ [-90, 90]`, `lon ∈ [-180, 180]`,
`buffer_m ∈ [100, 5000]` with default 750, the default layers list, then the
`validate_layers` validator.  `none` for an optional argument means the field
was omitted from the request body. -/
def mkLocationRequest (lat lon : Rat) (buffer_m : Option Int)
    (layers : Option (List String)) : Except String LocationRequest :=
  if lat < -90 ∨ 90 < lat then .error "lat outside [-90, 90]"
  else if lon < -180 ∨ 180 < lon then .error "lon outside [-180, 180]"
  else if (buffer_m.getD 750) < 100 ∨ 5000 < (buffer_m.getD 750) then
    .error "buffer_m outside [100, 5000]"
  else
    match validate_layers (layers.getD default_layers) with
    | .error e => .error e
    | .ok ls => .ok ⟨lat, lon, buffer_m.getD 750, ls⟩

/-! ## Layer guards inside analyze_location (app/gee_utils.py:775-807) -/

/-- The membership test `'administrative' in layers` guarding the
administrative section of `analyze_location` (app/gee_utils.py:776). -/
def administrative_branch (layers : List String) : Bool :=
  layers.contains "administrative"

/-- The membership test `'vegetation' in layers` guarding the vegetation
section of `analyze_location` (app/gee_utils.py:785). -/
def vegetation_branch (layers : List String) : Bool :=
  layers.contains "vegetation"

theorem validate_layers_ok_all_supported (layers : List String)
    (h : (validate_layers layers).isOk = true) :
    ∀ l ∈ layers, supported_layers.contains l = true := by
  intro l hl
  cases hf : layers.find? (fun layer => !supported_layers.contains layer) with
  | some l0 =>
      unfold validate_layers at h
      rw [hf] at h
      simp [Except.isOk, Except.toBool] at h
  | none =>
      have := List.find?_eq_none.mp hf l hl
      simpa using this

/-! ## Claim theorems (second group) -/

/-- C2: any layers list accepted by the `validate_layers` validator is drawn
from the nine-name allow-list, which contains neither "administrative" nor
"vegetation"; hence the membership guards of the administrative and
vegetation sections inside `analyze_location` are both false — those branches
are unreachable under the validator's precondition. -/
theorem validator_precludes_admin_and_vegetation_branches
    (layers : List String) (h : (validate_layers layers).isOk = true) :
    administrative_branch layers = false ∧ vegetation_branch layers = false := by
  have hall := validate_layers_ok_all_supported layers h
  constructor
  · unfold administrative_branch
    cases hc : layers.contains "administrative" with
    | false => rfl
    | true =>
        have hmem : "administrative" ∈ layers := List.elem_iff.mp hc
        exact absurd (hall _ hmem) (by decide)
  · unfold vegetation_branch
    cases hc : layers.contains "vegetation" with
    | false => rfl
    | true =>
        have hmem : "vegetation" ∈ layers := List.elem_iff.mp hc
        exact absurd (hall _ hmem) (by decide)

/-- C2 witness: the accepted layers list ["ndvi"] takes neither branch. -/
theorem validator_precludes_admin_and_vegetation_branches_witness :
    (validate_layers ["ndvi"]).isOk = true ∧
    administrative_branch ["ndvi"] = false ∧ vegetation_branch ["ndvi"] = false :=
  ⟨by decide, validator_precludes_admin_and_vegetation_branches ["ndvi"] (by decide)⟩

/-- C4: `LocationRequest` validation rejects out-of-range latitude, longitude
and buffer, and any layer outside the nine-name allow-list (with the error
message naming the offending layer and the full allow-list); a request
supplying only lat and lon gets `buffer_m = 750` and the four default layers;
the all-nine-layers list passes validation. -/
theorem location_request_validation_boundaries :
    (∀ lat lon b ls, (lat < -90 ∨ 90 < lat) →
        (mkLocationRequest lat lon b ls).isOk = false) ∧
    (∀ lat lon b ls, (lon < -180 ∨ 180 < lon) →
        (mkLocationRequest lat lon b ls).isOk = false) ∧
    (∀ lat lon (b : Int) ls, (b < 100 ∨ 5000 < b) →
        (mkLocationRequest lat lon (some b) ls).isOk = false) ∧
    (∀ lat lon b ls l, l ∈ ls → l ∉ supported_layers →
        (mkLocationRequest lat lon b (some ls)).isOk = false) ∧
    (∀ lat lon b ls l0, ¬(lat < -90 ∨ 90 < lat) → ¬(lon < -180 ∨ 180 < lon) →
        ¬((b.getD 750) < 100 ∨ 5000 < (b.getD 750)) →
        ls.find? (fun layer => !supported_layers.contains layer) = some l0 →
        mkLocationRequest lat lon b (some ls) = .error (unsupportedLayerMessage l0)) ∧
    (∀ l0, unsupportedLayerMessage l0 =
        "Unsupported layer: " ++ l0 ++ ". Supported layers: " ++
          "[\x27ndvi\x27, \x27ndbi\x27, \x27ndwi\x27, \x27elevation\x27, \x27slope\x27, \x27landcover\x27, \x27water_occurrence\x27, \x27rainfall\x27, \x27buildings\x27]") ∧
    (∀ lat lon, ¬(lat < -90 ∨ 90 < lat) → ¬(lon < -180 ∨ 180 < lon) →
        mkLocationRequest lat lon none none = .ok ⟨lat, lon, 750, default_layers⟩) ∧
    (∀ lat lon, ¬(lat < -90 ∨ 90 < lat) → ¬(lon < -180 ∨ 180 < lon) →
        mkLocationRequest lat lon none (some supported_layers) =
          .ok ⟨lat, lon, 750, supported_layers⟩) := by
  refine ⟨?_, ?_, ?_, ?_, ?_, ?_, ?_, ?_⟩
  · intro lat lon b ls h
    unfold mkLocationRequest
    rw [if_pos h]
    rfl
  · intro lat lon b ls h
    unfold mkLocationRequest
    split_ifs <;> rfl
  · intro lat lon b ls h
    unfold mkLocationRequest
    simp only [Option.getD_some]
    split_ifs <;> rfl
  · intro lat lon b ls l hl hns
    unfold mkLocationRequest
    split_ifs with h1 h2 h3
    · rfl
    · rfl
    · rfl
    · simp only [Option.getD_some]
      cases hf : validate_layers ls with
      | error e => rfl
      | ok ls2 =>
          exfalso
          have : supported_layers.contains l = true :=
            validate_layers_ok_all_supported ls (by rw [hf]; rfl) l hl
          exact hns (List.elem_iff.mp this)
  · intro lat lon b ls l0 h1 h2 h3 hf
    unfold mkLocationRequest
    rw [if_neg h1, if_neg h2, if_neg h3]
    simp only [Option.getD_some]
    have hv : validate_layers ls = .error (unsupportedLayerMessage l0) := by
      unfold validate_layers
      rw [hf]
    rw [hv]
  · intro l0
    have hrepr : pyListRepr supported_layers =
        "[\x27ndvi\x27, \x27ndbi\x27, \x27ndwi\x27, \x27elevation\x27, \x27slope\x27, \x27landcover\x27, \x27water_occurrence\x27, \x27rainfall\x27, \x27buildings\x27]" := rfl
    unfold unsupportedLayerMessage
    rw [hrepr]
  · intro lat lon h1 h2
    unfold mkLocationRequest
    rw [if_neg h1, if_neg h2, if_neg (by simp only [Option.getD_none]; decide)]
    rfl
  · intro lat lon h1 h2
    unfold mkLocationRequest
    rw [if_neg h1, if_neg h2, if_neg (by simp only [Option.getD_none]; decide)]
    rfl

/-- C4 witness: concrete instances — latitude 91 is rejected, buffer 50 is
rejected, an unsupported layer is rejected with the documented message, the
lat/lon-only request gets the defaults, and the all-nine list is accepted. -/
theorem location_request_validation_boundaries_witness :
    (mkLocationRequest 91 77.5946 none none).isOk = false ∧
    (mkLocationRequest 12.9716 77.5946 (some 50) none).isOk = false ∧
    mkLocationRequest 12.9716 77.5946 none (some ["invalid_layer"]) =
      .error (unsupportedLayerMessage "invalid_layer") ∧
    mkLocationRequest 12.9716 77.5946 none none =
      .ok ⟨12.9716, 77.5946, 750, default_layers⟩ ∧
    (mkLocationRequest 12.9716 77.5946 none (some supported_layers)).isOk = true := by
  obtain ⟨p1, p2, p3, p4, p5, p6, p7, p8⟩ := location_request_validation_boundaries
  refine ⟨?_, ?_, ?_, ?_, ?_⟩
  · exact p1 91 77.5946 none none (Or.inr (by norm_num))
  · exact p3 12.9716 77.5946 50 none (Or.inl (by norm_num))
  · exact p5 12.9716 77.5946 none ["invalid_layer"] "invalid_layer"
      (by norm_num) (by norm_num) (by norm_num) (by decide)
  · exact p7 12.9716 77.5946 (by norm_num) (by norm_num)
  · rw [p8 12.9716 77.5946 (by norm_num) (by norm_num)]
    rfl

/-! ## Region resolution of the standalone services (app_hansen_forest.py:82-140) -/

/-- A resolved region geometry: an explicit rectangle, or bounds materialised
from the administrative (GAUL) dataset, kept abstract. -/
inductive Geom where
  | rect (west south east north : Rat)
  | gaulBounds (id : Nat)
deriving DecidableEq

/-- Engine-side GAUL lookups used by the region helper
(app_hansen_forest.py:25-80): district search (with optional state hint) and
state search; `none` models both "no match" and a caught lookup error, which
the source treats identically (returns `None`). -/
structure HansenEnv where
  districtBounds : String → Option String → Option Geom
  stateBounds : String → Option Geom

/-- Python `str.lower()` (ASCII), used for region-key matching; defined
structurally over the character list. -/
def pyLower (s : String) : String := String.mk (s.data.map Char.toLower)

/-- The fixed predefined-region table (app_hansen_forest.py:91-102). -/
def predefined_regions : List (String × Rat × Rat × Rat × Rat) :=
  [("india", 68.0, 6.0, 97.0, 37.0),
   ("mumbai", 72.7, 18.8, 73.2, 19.3),
   ("delhi", 76.8, 28.4, 77.5, 28.9),
   ("bangalore", 77.4, 12.8, 77.8, 13.2),
   ("kolkata", 88.2, 22.4, 88.5, 22.7),
   ("chennai", 80.1, 12.8, 80.3, 13.2),
   ("hyderabad", 78.3, 17.3, 78.6, 17.5),
   ("pune", 73.7, 18.4, 73.9, 18.6),
   ("ahmedabad", 72.4, 23.0, 72.7, 23.1),
   ("jaipur", 75.7, 26.8, 75.9, 27.0)]

/-- Dictionary lookup in the predefined-region table. -/
def lookupPredefined (key : String) : Option (Rat × Rat × Rat × Rat) :=
  (predefined_regions.find? (fun p => p.1 == key)).map Prod.snd

/-- Embeds `_get_region_bounds` (app_hansen_forest.py:82-121): explicit bbox
first, then the predefined table (case-insensitive), then GAUL district, then
GAUL state, finally the fixed India rectangle. -/
def _get_region_bounds (region : String) (west south east north : Option Rat)
    (state_hint : Option String) (env : HansenEnv) : Geom :=
  match west, south, east, north with
  | some w, some s, some e, some n => Geom.rect w s e n
  | _, _, _, _ =>
    match lookupPredefined (pyLower region) with
    | some (w, s, e, n) => Geom.rect w s e n
    | none =>
      match env.districtBounds region state_hint with
      | some g => g
      | none =>
        match env.stateBounds region with
        | some g => g
        | none => Geom.rect 68.0 6.0 97.0 37.0

/-- The nine city keys of the zoom-level check (app_hansen_forest.py:134). -/
def city_keys : List String :=
  ["mumbai", "delhi", "bangalore", "kolkata", "chennai",
   "hyderabad", "pune", "ahmedabad", "jaipur"]

/-- Resolved bounds together with the suggested map zoom. -/
structure BoundsWithZoom where
  bounds : Geom
  zoom : Nat
deriving DecidableEq

/-- Embeds `_get_region_bounds_with_zoom` (app_hansen_forest.py:123-140).
Note the zoom chain tests `region.lower() == "india"` before the
explicit-coordinates test. -/
def _get_region_bounds_with_zoom (region : String)
    (west south east north : Option Rat) (state_hint : Option String)
    (env : HansenEnv) : BoundsWithZoom :=
  let bounds := _get_region_bounds region west south east north state_hint env
  let zoom : Nat :=
    if pyLower region = "india" then 5
    else if west.isSome && south.isSome && east.isSome && north.isSome then 8
    else if city_keys.contains (pyLower region) then 10
    else 8
  ⟨bounds, zoom⟩

/-- An environment in which every GAUL lookup finds nothing. -/
def emptyHansenEnv : HansenEnv := ⟨fun _ _ => none, fun _ => none⟩

/-! ## Claim theorems (third group) -/

/-- C3 counterexample: with region name "india" and a full bounding box, the
resolved geometry is the explicit rectangle but the zoom hint is 5, not 8 —
the zoom chain tests the "india" key before the explicit-coordinates case, so
the claim "the zoom hint is 8 ... regardless of any region name also supplied"
fails at this input. -/
theorem region_zoom_claim_counterexample :
    _get_region_bounds_with_zoom "india" (some 70) (some 10) (some 90) (some 30)
        none emptyHansenEnv = ⟨Geom.rect 70 10 90 30, 5⟩ ∧
    (5 : Nat) ≠ 8 := by
  constructor
  · rfl
  · decide

/-- C3 amended: with a full bounding box the resolved geometry is exactly the
explicit rectangle regardless of the region name, and the zoom hint is 8
unless the region name matches "india" case-insensitively, in which case it is
5; with no bounding box and a region name matching "india" case-insensitively
the result is the rectangle [68, 6, 97, 37] with zoom hint 5. -/
theorem region_bounds_with_zoom_amended :
    (∀ (region : String) (w s e n : Rat) (hint : Option String) (env : HansenEnv),
        _get_region_bounds_with_zoom region (some w) (some s) (some e) (some n) hint env =
          ⟨Geom.rect w s e n, if pyLower region = "india" then 5 else 8⟩) ∧
    (∀ (region : String) (hint : Option String) (env : HansenEnv),
        pyLower region = "india" →
        _get_region_bounds_with_zoom region none none none none hint env =
          ⟨Geom.rect 68.0 6.0 97.0 37.0, 5⟩) := by
  constructor
  · intro region w s e n hint env
    unfold _get_region_bounds_with_zoom _get_region_bounds
    by_cases hi : pyLower region = "india"
    · rw [if_pos hi, if_pos hi]
    · rw [if_neg hi, if_neg hi]
      simp only [Option.isSome_some, Bool.and_self, if_true]
  · intro region hint env hi
    unfold _get_region_bounds_with_zoom _get_region_bounds
    rw [if_pos hi, hi]
    rfl

/-- C3 amended witness: concrete instances — region "INDIA" with an explicit
bounding box resolves to that rectangle with zoom 5; region "INDIA" with no
bounding box resolves to the India rectangle with zoom 5; a non-india region
with an explicit bounding box gets zoom 8. -/
theorem region_bounds_with_zoom_amended_witness :
    _get_region_bounds_with_zoom "INDIA" (some 70) (some 10) (some 90) (some 30)
        none emptyHansenEnv = ⟨Geom.rect 70 10 90 30, 5⟩ ∧
    _get_region_bounds_with_zoom "INDIA" none none none none none emptyHansenEnv =
      ⟨Geom.rect 68.0 6.0 97.0 37.0, 5⟩ ∧
    _get_region_bounds_with_zoom "mumbai" (some 1) (some 2) (some 3) (some 4)
        none emptyHansenEnv = ⟨Geom.rect 1 2 3 4, 8⟩ := by
  obtain ⟨p1, p2⟩ := region_bounds_with_zoom_amended
  refine ⟨?_, ?_, ?_⟩
  · rw [p1 "INDIA" 70 10 90 30 none emptyHansenEnv]
    rfl
  · exact p2 "INDIA" none emptyHansenEnv rfl
  · rw [p1 "mumbai" 1 2 3 4 none emptyHansenEnv]
    rfl

/-! ## Building analysis (app/gee_utils.py:449-623) -/

/-- The `building_summary` dictionary. -/
structure BuildingSummary where
  total_buildings : Nat
  analyzed_buildings : Nat
  total_building_area_sqm : Rat
  average_building_area_sqm : Rat
  max_building_area_sqm : Rat
  min_building_area_sqm : Rat
deriving DecidableEq

/-- The `urban_context` dictionary. -/
structure UrbanContext where
  nighttime_lights_mean : Rat
  population_density_mean : Rat
  land_surface_temp_mean : Rat
  urban_heat_island_intensity : Rat
deriving DecidableEq

/-- The `visualization_urls` dictionary. -/
structure BuildingVisualizationUrls where
  buildings_url : Option String
  nightlights_url : Option String
  population_url : Option String
  urban_heat_url : Option String
deriving DecidableEq

/-- One entry of `individual_buildings`. -/
structure IndividualBuilding where
  building_id : String
  area_sqm : Rat
  perimeter_m : Rat
  centroid_lon : Rat
  centroid_lat : Rat
  confidence : Rat
  surrounding_ndvi_mean : Rat
  surrounding_ndvi_std : Rat
  elevation_mean : Rat
  elevation_min : Rat
  elevation_max : Rat
  dominant_landcover : Nat
deriving DecidableEq

/-- The full result of `analyze_buildings_in_area`. -/
structure BuildingAnalysisResult where
  building_summary : BuildingSummary
  urban_context : UrbanContext
  individual_buildings : List IndividualBuilding
  visualization_urls : BuildingVisualizationUrls
deriving DecidableEq

/-- Engine data fetched in the aggregate-statistics block
(app/gee_utils.py:502-511): total footprint area, and the optional `max`/`min`
entries of the sampled `aggregate_stats` dictionary. -/
structure BuildingAggregateData where
  total_area : Rat
  sample_max : Option Rat
  sample_min : Option Rat

/-- Per-building data fetched while sampling individual buildings
(app/gee_utils.py:552-579). -/
structure SampleBuilding where
  area : Rat
  perimeter : Rat
  centroid_lon : Rat
  centroid_lat : Rat
  confidence : Option Rat

/-- Engine round-trips of `analyze_buildings_in_area`; `.error ()` models a
raised exception caught by the corresponding `except` block. -/
structure BuildingsEnv where
  count_result : Except Unit Nat
  aggregate_data : Except Unit BuildingAggregateData
  sample_list : Except Unit (List (Except Unit SampleBuilding))
  buildings_viz_url : Option String

/-- The canonical empty result returned when no buildings are found
(app/gee_utils.py:477-499). -/
def empty_building_analysis : BuildingAnalysisResult :=
  { building_summary :=
      { total_buildings := 0
        analyzed_buildings := 0
        total_building_area_sqm := 0
        average_building_area_sqm := 0
        max_building_area_sqm := 0
        min_building_area_sqm := 0 }
    urban_context :=
      { nighttime_lights_mean := 0
        population_density_mean := 0
        land_surface_temp_mean := 25
        urban_heat_island_intensity := 0 }
    individual_buildings := []
    visualization_urls :=
      { buildings_url := none
        nightlights_url := none
        population_url := none
        urban_heat_url := none } }

/-- Embeds `analyze_buildings_in_area` (app/gee_utils.py:449-623): a counting
failure is treated as zero buildings; zero buildings yields the canonical
empty result; otherwise the summary block, fixed urban-context placeholders,
up-to-`min 5 max_buildings count` sampled buildings (skipping per-building
failures), and the visualization URLs are assembled. -/
def analyze_buildings_in_area (env : BuildingsEnv) (max_buildings : Nat) :
    BuildingAnalysisResult :=
  let building_count : Nat := match env.count_result with
    | .ok n => n
    | .error _ => 0
  if building_count = 0 then
    empty_building_analysis
  else
    let building_summary := match env.aggregate_data with
      | .ok d =>
          let avg_area := d.total_area / (building_count : Rat)
          { total_buildings := building_count
            analyzed_buildings := min max_buildings building_count
            total_building_area_sqm := pyRound d.total_area 2
            average_building_area_sqm := pyRound avg_area 2
            max_building_area_sqm := pyRound (d.sample_max.getD avg_area) 2
            min_building_area_sqm := pyRound (d.sample_min.getD avg_area) 2 }
      | .error _ =>
          { total_buildings := building_count
            analyzed_buildings := 0
            total_building_area_sqm := 0
            average_building_area_sqm := 0
            max_building_area_sqm := 0
            min_building_area_sqm := 0 }
    let urban_context : UrbanContext := ⟨0.5, 50, 28, 3⟩
    let individual_buildings := match env.sample_list with
      | .error _ => []
      | .ok bs =>
          let analysis_limit := min 5 (min max_buildings building_count)
          (bs.take analysis_limit).enum.filterMap (fun ib =>
            match ib.2 with
            | .error _ => none
            | .ok b => some
                { building_id := "building_" ++ toString (ib.1 + 1)
                  area_sqm := pyRound b.area 2
                  perimeter_m := pyRound b.perimeter 2
                  centroid_lon := pyRound b.centroid_lon 6
                  centroid_lat := pyRound b.centroid_lat 6
                  confidence := pyRound (b.confidence.getD 0.8) 3
                  surrounding_ndvi_mean := 0.3
                  surrounding_ndvi_std := 0.1
                  elevation_mean := 100
                  elevation_min := 95
                  elevation_max := 105
                  dominant_landcover := 50 })
    { building_summary := building_summary
      urban_context := urban_context
      individual_buildings := individual_buildings
      visualization_urls := ⟨env.buildings_viz_url, none, none, none⟩ }

/-! ## Claim theorems (fourth group) -/

/-- C5: whenever the building count is zero — including when counting itself
fails and the count is treated as zero — `analyze_buildings_in_area` returns,
without raising, exactly the canonical empty structure: all six
building-summary fields 0, urban context (0, 0, 25, 0), an empty
individual-buildings list, and all four visualization URLs `None`. -/
theorem zero_buildings_return_canonical_empty (env : BuildingsEnv)
    (max_buildings : Nat)
    (h : env.count_result = .error () ∨ env.count_result = .ok 0) :
    analyze_buildings_in_area env max_buildings = empty_building_analysis := by
  unfold analyze_buildings_in_area
  rcases h with h | h <;> rw [h] <;> rfl

/-- C5 witness: a concrete environment whose count succeeds with zero, and one
whose count fails, both yield the canonical empty structure. -/
theorem zero_buildings_return_canonical_empty_witness :
    analyze_buildings_in_area ⟨.ok 0, .error (), .error (), none⟩ 50 =
      empty_building_analysis ∧
    analyze_buildings_in_area ⟨.error (), .error (), .error (), none⟩ 20 =
      empty_building_analysis :=
  ⟨zero_buildings_return_canonical_empty _ 50 (Or.inr rfl),
   zero_buildings_return_canonical_empty _ 20 (Or.inl rfl)⟩

/-! ## Landcover histogram (app/gee_utils.py:160-203) -/

/-- The ESA WorldCover class codes (app/gee_utils.py:172). -/
def class_values : List Nat := [10, 20, 30, 40, 50, 60, 70, 80, 90, 95, 100]

/-- The class names, aligned with `class_values` (app/gee_utils.py:173-177). -/
def class_names : List String :=
  ["tree_cover", "shrubland", "grassland", "cropland", "built_up",
   "bare_sparse_vegetation", "snow_ice", "permanent_water_bodies",
   "herbaceous_wetland", "mangroves", "moss_lichen"]

/-- Engine round-trips of `calculate_landcover_histogram`: per class code, the
result of `class_area.getInfo()` — `.error ()` for a raised exception,
`.ok none` for a missing/None `Map` entry, `.ok (some a)` for a pixel-area
sum — and the value returned by each `total_area.getInfo()` call (the same
server-side value every time). -/
structure LandcoverEnv where
  class_area : Nat → Except Unit (Option Rat)
  roi_area : Rat

/-- One iteration of the per-class loop (app/gee_utils.py:183-201): a class
with data appends its rounded percentage and performs one `total_area`
fetch; a failed or empty reduction appends `0.0` with no fetch.  A zero ROI
area makes the Python division raise, which the bare `except` also turns into
`0.0` — the same value `pyRound (a / 0 * 100) 2` denotes here. -/
def landcover_step (env : LandcoverEnv) (acc : List (String × Rat) × Nat)
    (vn : Nat × String) : List (String × Rat) × Nat :=
  match env.class_area vn.1 with
  | .ok (some a) =>
      (acc.1 ++ [(vn.2, pyRound (a / env.roi_area * 100) 2)], acc.2 + 1)
  | _ => (acc.1 ++ [(vn.2, (0 : Rat))], acc.2)

/-- The loop of `calculate_landcover_histogram` over the 11 classes, returning
the histogram entries in order together with the number of `total_area`
fetches performed. -/
def landcover_loop (env : LandcoverEnv) : List (String × Rat) × Nat :=
  (class_values.zip class_names).foldl (landcover_step env) ([], 0)

/-- Embeds `calculate_landcover_histogram` (app/gee_utils.py:160-203): the
returned dictionary, as its ordered entry list. -/
def calculate_landcover_histogram (env : LandcoverEnv) : List (String × Rat) :=
  (landcover_loop env).1

/-- The number of `total_area.getInfo()` round-trips performed by one call of
`calculate_landcover_histogram` (app/gee_utils.py:196 sits inside the
per-class loop). -/
def roi_area_fetch_count (env : LandcoverEnv) : Nat :=
  (landcover_loop env).2

/-- The histogram entry contributed by one class. -/
def landcoverClassValue (env : LandcoverEnv) (vn : Nat × String) : String × Rat :=
  match env.class_area vn.1 with
  | .ok (some a) => (vn.2, pyRound (a / env.roi_area * 100) 2)
  | _ => (vn.2, 0)

/-- Whether one class's iteration fetches the ROI area. -/
def landcoverFetches (env : LandcoverEnv) (vn : Nat × String) : Bool :=
  match env.class_area vn.1 with
  | .ok (some _) => true
  | _ => false

theorem landcover_foldl_spec (env : LandcoverEnv) (l : List (Nat × String)) :
    ∀ (acc : List (String × Rat)) (k : Nat),
      l.foldl (landcover_step env) (acc, k) =
        (acc ++ l.map (landcoverClassValue env),
         k + (l.filter (landcoverFetches env)).length) := by
  induction l with
  | nil => intro acc k; simp
  | cons hd tl ih =>
      intro acc k
      rw [List.foldl_cons]
      show List.foldl (landcover_step env) (landcover_step env (acc, k) hd) tl = _
      cases hc : env.class_area hd.1 with
      | ok o =>
          cases o with
          | some a =>
              have hstep : landcover_step env (acc, k) hd =
                  (acc ++ [(hd.2, pyRound (a / env.roi_area * 100) 2)], k + 1) := by
                unfold landcover_step
                rw [hc]
              rw [hstep, ih]
              simp [landcoverClassValue, landcoverFetches, hc, List.filter_cons]
              omega
          | none =>
              have hstep : landcover_step env (acc, k) hd =
                  (acc ++ [(hd.2, (0 : Rat))], k) := by
                unfold landcover_step
                rw [hc]
              rw [hstep, ih]
              simp [landcoverClassValue, landcoverFetches, hc, List.filter_cons]
      | error e =>
          have hstep : landcover_step env (acc, k) hd =
              (acc ++ [(hd.2, (0 : Rat))], k) := by
            unfold landcover_step
            rw [hc]
          rw [hstep, ih]
          simp [landcoverClassValue, landcoverFetches, hc, List.filter_cons]

theorem landcover_loop_eq (env : LandcoverEnv) :
    landcover_loop env =
      ((class_values.zip class_names).map (landcoverClassValue env),
       ((class_values.zip class_names).filter (landcoverFetches env)).length) := by
  unfold landcover_loop
  rw [landcover_foldl_spec]
  simp

/-- An environment in which every class reduction succeeds with area 10 over
an ROI of area 100. -/
def all_classes_env : LandcoverEnv := ⟨fun _ => .ok (some 10), 100⟩

/-! ## Claim theorems (fifth group) -/

/-- C7 counterexample: the ROI area is not "computed once and not re-fetched
per class" — the `total_area.getInfo()` call sits inside the per-class loop,
so with all 11 class reductions succeeding the histogram computation performs
11 ROI-area fetches, not 1. -/
theorem landcover_roi_area_refetched_counterexample :
    roi_area_fetch_count all_classes_env = 11 ∧ (11 : Nat) ≠ 1 := by
  constructor
  · rw [roi_area_fetch_count, landcover_loop_eq]
    rfl
  · decide

/-- C7 amended: `calculate_landcover_histogram` returns entries for exactly
the 11 fixed class names in order; for nonnegative Engine data every value is
a nonnegative multiple of 1/100 (two-decimal rounding of the class share of
the single ROI-area value times 100); a class whose reduction fails or
returns no data maps to exactly `0.0` (never missing); and the ROI-area value
is fetched once per class with data, not once overall. -/
theorem landcover_histogram_amended (env : LandcoverEnv)
    (hroi : 0 ≤ env.roi_area)
    (harea : ∀ v r, env.class_area v = .ok (some r) → 0 ≤ r) :
    (calculate_landcover_histogram env).map Prod.fst = class_names ∧
    (∀ p ∈ calculate_landcover_histogram env,
        0 ≤ p.2 ∧ ∃ k : Int, p.2 = (k : Rat) / 100) ∧
    (∀ vn ∈ class_values.zip class_names,
        ((env.class_area vn.1 = .error () ∨ env.class_area vn.1 = .ok none) →
          (vn.2, (0 : Rat)) ∈ calculate_landcover_histogram env) ∧
        (∀ a, env.class_area vn.1 = .ok (some a) →
          (vn.2, pyRound (a / env.roi_area * 100) 2) ∈
            calculate_landcover_histogram env)) ∧
    roi_area_fetch_count env =
      ((class_values.zip class_names).filter (landcoverFetches env)).length := by
  have hhist : calculate_landcover_histogram env =
      (class_values.zip class_names).map (landcoverClassValue env) := by
    rw [calculate_landcover_histogram, landcover_loop_eq]
  refine ⟨?_, ?_, ?_, ?_⟩
  · rw [hhist, List.map_map]
    have : ∀ vn ∈ class_values.zip class_names,
        (Prod.fst ∘ landcoverClassValue env) vn = vn.2 := by
      intro vn _
      show (landcoverClassValue env vn).1 = vn.2
      unfold landcoverClassValue
      cases env.class_area vn.1 with
      | ok o => cases o <;> rfl
      | error e => rfl
    rw [List.map_congr_left this]
    rfl
  · intro p hp
    rw [hhist] at hp
    obtain ⟨vn, hvn, hfp⟩ := List.mem_map.mp hp
    subst hfp
    unfold landcoverClassValue
    cases hc : env.class_area vn.1 with
    | ok o =>
        cases o with
        | some a =>
            constructor
            · exact pyRound_nonneg _ 2
                (mul_nonneg (div_nonneg (harea _ _ hc) hroi) (by norm_num))
            · exact pyRound_den_100 _
        | none => exact ⟨le_refl 0, 0, by norm_num⟩
    | error e => exact ⟨le_refl 0, 0, by norm_num⟩
  · intro vn hvn
    constructor
    · intro hfail
      rw [hhist]
      have : landcoverClassValue env vn = (vn.2, 0) := by
        unfold landcoverClassValue
        rcases hfail with h | h <;> rw [h]
      rw [← this]
      exact List.mem_map_of_mem _ hvn
    · intro a ha
      rw [hhist]
      have : landcoverClassValue env vn =
          (vn.2, pyRound (a / env.roi_area * 100) 2) := by
        unfold landcoverClassValue
        rw [ha]
      rw [← this]
      exact List.mem_map_of_mem _ hvn
  · rw [roi_area_fetch_count, landcover_loop_eq]

/-- C7 amended witness: in the all-classes-succeed environment the keys are
the 11 class names, the built_up class reports the rounded percentage of its
area share, and the ROI area is fetched 11 times. -/
theorem landcover_histogram_amended_witness :
    (calculate_landcover_histogram all_classes_env).map Prod.fst = class_names ∧
    roi_area_fetch_count all_classes_env =
      ((class_values.zip class_names).filter (landcoverFetches all_classes_env)).length := by
  have h := landcover_histogram_amended all_classes_env (by norm_num [all_classes_env])
    (fun v r hr => by
      simp only [all_classes_env, Except.ok.injEq, Option.some.injEq] at hr
      rw [← hr]
      norm_num)
  exact ⟨h.1, h.2.2.2⟩

/-! ## EarthEngineData shaping (app/models.py:172-178, app/main.py:131-139) -/

/-- The dictionary returned by `analyze_location` (app/gee_utils.py:681-814):
the four always-present sections plus the optional `buildings`,
`administrative` and `vegetation` sections (the latter two abstract — their
content is irrelevant to the schema claim). -/
structure GeeResults where
  summary : List (String × Rat)
  landcover_histogram : List (String × Rat)
  visuals : List (String × Option String)
  roi : List (String × Rat)
  buildings : Option BuildingAnalysisResult
  administrative : Option Nat
  vegetation : Option Nat

/-- The `EarthEngineData` pydantic model (app/models.py:172-178): it declares
exactly the fields `summary`, `landcover_histogram`, `visuals`, `roi` and
`buildings` — no `administrative` or `vegetation` field. -/
structure EarthEngineData where
  summary : List (String × Rat)
  landcover_histogram : List (String × Rat)
  visuals : List (String × Option String)
  roi : List (String × Rat)
  buildings : Option BuildingAnalysisResult

/-- Models pydantic construction of `EarthEngineData` with the keyword
arguments passed by the endpoint (app/main.py:131-139), including
`administrative=` and `vegetation=`.  Pydantic's default `extra` policy
ignores keyword arguments that match no declared field, so the last two
arguments are dropped. -/
def mkEarthEngineData (summary landcover_histogram : List (String × Rat))
    (visuals : List (String × Option String)) (roi : List (String × Rat))
    (buildings : Option BuildingAnalysisResult)
    (administrative : Option Nat) (vegetation : Option Nat) : EarthEngineData :=
  { summary := summary
    landcover_histogram := landcover_histogram
    visuals := visuals
    roi := roi
    buildings := buildings }

/-- The `earth_engine` object built by `analyze_location_endpoint`
(app/main.py:131-139) from the core library's results. -/
def endpoint_earth_engine (r : GeeResults) : EarthEngineData :=
  mkEarthEngineData r.summary r.landcover_histogram r.visuals r.roi
    r.buildings r.administrative r.vegetation

/-- The declared field names of the `EarthEngineData` schema, in declaration
order (app/models.py:172-178): the keys a serialized `earth_engine` object
carries. -/
def earthEngineDataFieldNames : List String :=
  ["summary", "landcover_histogram", "visuals", "roi", "buildings"]

/-! ## The /analyze-polygon endpoint (app/main.py:225-423) -/

/-- The geometry member of an `/analyze-polygon` request body: a GeoJSON
Feature wrapping a geometry, or a bare geometry; only the type tag matters to
the control flow being verified. -/
inductive GeoJsonGeom where
  | feature (inner_type : String) : GeoJsonGeom
  | bare (geom_type : String) : GeoJsonGeom
deriving DecidableEq

/-- The `geom_type` extracted at app/main.py:252-257: a Feature's inner
geometry type, or the bare geometry's own type. -/
def geomTypeOf : GeoJsonGeom → String
  | .feature t => t
  | .bare t => t

/-- An `/analyze-polygon` request body: `request.get('geometry')` (with
`none` covering both a missing and a falsy value) and
`request.get('layer', 'buildings')`. -/
structure PolygonRequest where
  geometry : Option GeoJsonGeom
  layer : Option String

/-- An exception raised inside the endpoint's `try` block: a FastAPI
`HTTPException` or any other (Engine) exception. -/
inductive PyException where
  | http (status : Nat) (detail : String) : PyException
  | engine (msg : String) : PyException
deriving DecidableEq

/-- Python `str(e)`: starlette's `HTTPException.__str__` renders
"status: detail"; a generic exception renders its message. -/
def pyStrOfException : PyException → String
  | .http status detail => toString status ++ ": " ++ detail
  | .engine msg => msg

/-- Engine-dependent outcomes of the three supported layer branches, each an
abstract payload identifier or a raised-exception message. -/
structure PolygonEnv where
  buildings_result : Except String Nat
  admin_result : Except String Nat
  vegetation_result : Except String Nat

/-- The endpoint's HTTP response: a success payload tagged by its
`analysis_type`, or an error status with a detail string. -/
inductive PolygonResponse where
  | success (analysis_type : String) (payload : Nat) : PolygonResponse
  | failure (status : Nat) (detail : String) : PolygonResponse
deriving DecidableEq

/-- The body of the endpoint's `try` block (app/main.py:239-414): missing
geometry and non-Polygon geometry raise 400s, the three supported layers run
their analyses (any Engine failure raises), and any other layer raises the
unsupported-analysis-type 400. -/
def analyze_polygon_inner (req : PolygonRequest) (env : PolygonEnv) :
    Except PyException (String × Nat) :=
  let layer := req.layer.getD "buildings"
  match req.geometry with
  | none => .error (.http 400 "No geometry provided")
  | some g =>
      if geomTypeOf g = "Polygon" then
        if layer = "buildings" then
          match env.buildings_result with
          | .ok p => .ok ("polygon_buildings", p)
          | .error m => .error (.engine m)
        else if layer = "administrative" then
          match env.admin_result with
          | .ok p => .ok ("polygon_administrative", p)
          | .error m => .error (.engine m)
        else if layer = "vegetation" then
          match env.vegetation_result with
          | .ok p => .ok ("polygon_vegetation", p)
          | .error m => .error (.engine m)
        else
          .error (.http 400 ("Analysis type \x27" ++ layer ++
            "\x27 not yet supported for polygons. Supported: buildings, administrative, vegetation"))
      else
        .error (.http 400 ("Unsupported geometry type: " ++ geomTypeOf g))

/-- Embeds `analyze_polygon_endpoint` (app/main.py:225-423): the `except
Exception` block at line 416 catches every exception raised inside the `try`
— including the endpoint's own `HTTPException(400, ...)`s, since FastAPI's
`HTTPException` subclasses `Exception` — and re-raises a 500 whose detail
wraps `str(e)`. -/
def analyze_polygon_endpoint (req : PolygonRequest) (env : PolygonEnv) :
    PolygonResponse :=
  match analyze_polygon_inner req env with
  | .ok (t, p) => .success t p
  | .error e => .failure 500 ("Polygon analysis failed: " ++ pyStrOfException e)

/-! ## Claim theorems (sixth group) -/

/-- C9: the `earth_engine` object of a successful `/analyze-location`
response carries exactly the five declared schema fields — never an
`administrative` or `vegetation` field — and its value is independent of any
administrative or vegetation section the core library computed, because the
undeclared keyword arguments are silently dropped. -/
theorem earth_engine_schema_drops_admin_vegetation :
    (∀ (r : GeeResults) (a v : Option Nat),
        endpoint_earth_engine { r with administrative := a, vegetation := v } =
          endpoint_earth_engine r) ∧
    earthEngineDataFieldNames =
      ["summary", "landcover_histogram", "visuals", "roi", "buildings"] ∧
    earthEngineDataFieldNames.contains "administrative" = false ∧
    earthEngineDataFieldNames.contains "vegetation" = false := by
  refine ⟨?_, rfl, by decide, by decide⟩
  intro r a v
  rfl

/-- C1: both documented 400 paths of `/analyze-polygon` actually answer 500.
With no geometry the endpoint's own `HTTPException(400, "No geometry
provided")` is caught by the blanket `except Exception` and re-raised as a
500 wrapping "400: No geometry provided", for every layer value; with a
Polygon geometry and an unsupported layer the 400 naming the layer and the
three supported ones is likewise converted to a 500. -/
theorem polygon_endpoint_error_paths_return_500 :
    (∀ (env : PolygonEnv) (layer : Option String),
        analyze_polygon_endpoint ⟨none, layer⟩ env =
          .failure 500 "Polygon analysis failed: 400: No geometry provided") ∧
    (∀ env : PolygonEnv,
        analyze_polygon_endpoint ⟨some (.bare "Polygon"), some "water"⟩ env =
          .failure 500 ("Polygon analysis failed: 400: Analysis type \x27water\x27 not yet supported for polygons. Supported: buildings, administrative, vegetation")) := by
  constructor
  · intro env layer
    rfl
  · intro env
    rfl

end SiteAnalysis
